import Mathlib

/-!
Verification development for the skydash telemetry backend.

The embedding translates the three provider implementations:
  * `src/backend/main.py` — the synthetic generator (`DroneState`);
  * `src/backend/mavlink_adapter.py` — the streaming ingestor (`MAVLinkDrone`);
  * `src/backend/dji_adapter.py` — the snapshot bridge (`DJIDrone`).

Python floats are modelled as exact rationals; `round(x, 2)` is modelled as
round-half-to-even on exact rationals (`round2`), matching Python's rounding
rule.  None of the facts proved below sit on a half-way tie, so the idealized
rational arithmetic agrees with the double-precision runs at every evaluated
point.  Library calls with no arithmetic content (`math.sin`, the random
draws, `mode_string_v10`) enter as explicit parameters, so every definition
stays executable.
-/

/-- Round-half-to-even to the nearest integer, as Python's `round` does
on exact values. -/
def roundHalfEven (x : ℚ) : ℤ :=
  if x - (⌊x⌋ : ℚ) < 1/2 then ⌊x⌋
  else if 1/2 < x - (⌊x⌋ : ℚ) then ⌊x⌋ + 1
  else if ⌊x⌋ % 2 = 0 then ⌊x⌋ else ⌊x⌋ + 1

/-- Python `round(x, 2)`: round to two decimal places. -/
def round2 (x : ℚ) : ℚ := (roundHalfEven (x * 100) : ℚ) / 100

/-- Python float `%` for a positive modulus. -/
def qmod (a b : ℚ) : ℚ := a - b * (⌊a / b⌋ : ℚ)

/-- The canonical telemetry record: the dict shape every provider returns
(`timestamp`, `altitude`, ..., `flight_mode`), with the nested `attitude`
and `gps` dicts flattened into named fields. -/
structure TelemetryRecord where
  timestamp : ℚ
  altitude : ℚ
  battery_voltage : ℚ
  status : String
  roll : ℚ
  pitch : ℚ
  yaw : ℚ
  gps_satellites : ℤ
  gps_latitude : ℚ
  gps_longitude : ℚ
  gps_altitude : ℚ
  signal_strength : ℤ
  ground_speed : ℚ
  armed : Bool
  flight_mode : String
deriving DecidableEq

/-! ## Synthetic generator (`src/backend/main.py`, class `DroneState`) -/

/-- Mutable state of `DroneState` (`__init__`, lines 27-33). -/
structure DroneState where
  start_time : ℚ
  initial_battery : ℚ
  battery_drain_rate : ℚ
  request_count : ℕ
  base_altitude : ℚ
  altitude_variance : ℚ
deriving DecidableEq

/-- `DroneState.__init__` with `time.time()` passed in as `now`. -/
def DroneState.init (now : ℚ) : DroneState :=
  { start_time := now
    initial_battery := 168/10
    battery_drain_rate := 1/1000
    request_count := 0
    base_altitude := 50
    altitude_variance := 5 }

/-- The per-call environment of `DroneState.get_telemetry`: the `math.sin`
function and the values drawn from `random` during the call. -/
structure SynthEnv where
  sinv : ℚ → ℚ
  gauss_roll : ℚ
  gauss_pitch : ℚ
  sat_draw : ℤ
  signal_draw : ℤ
  speed_draw : ℚ
  lat_noise : ℚ
  lon_noise : ℚ

/-- `DroneState.get_telemetry` (lines 35-99): increments `request_count`
first, then computes the record; returns the record together with the
mutated state.  `now` is the call's `time.time()`. -/
def DroneState.getTelemetry (s : DroneState) (now : ℚ) (env : SynthEnv) :
    TelemetryRecord × DroneState :=
  let count := s.request_count + 1
  let elapsed := now - s.start_time
  let altitude := s.base_altitude + s.altitude_variance * env.sinv (elapsed * (6/10))
  let battery_voltage := max 14 (s.initial_battery - s.battery_drain_rate * (count : ℚ))
  let status := if 14 < battery_voltage then ("ARMED") else ("RTL")
  ({ timestamp := round2 elapsed
     altitude := round2 altitude
     battery_voltage := round2 battery_voltage
     status := status
     roll := round2 env.gauss_roll
     pitch := round2 env.gauss_pitch
     yaw := round2 (qmod (elapsed * 5) 360)
     gps_satellites := env.sat_draw
     gps_latitude := 377749/10000 + env.lat_noise
     gps_longitude := -1224194/10000 + env.lon_noise
     gps_altitude := round2 altitude
     signal_strength := env.signal_draw
     ground_speed := round2 env.speed_draw
     armed := status == "ARMED"
     flight_mode := if status == "ARMED" then ("STABILIZE") else ("RTL") },
   { s with request_count := count })

/-- `POST /reset` (`reset_simulation`, lines 150-155): replaces the drone
with a freshly constructed `DroneState` at the reset instant. -/
def resetSim (now : ℚ) : DroneState := DroneState.init now

/-- State after `n` successive `get_telemetry` calls starting from a fresh
`DroneState` created at time `t0`; `env k` supplies the wall clock and the
random draws of call number `k + 1`. -/
def synthStateAfter (t0 : ℚ) (env : ℕ → ℚ × SynthEnv) : ℕ → DroneState
  | 0 => DroneState.init t0
  | n + 1 => ((synthStateAfter t0 env n).getTelemetry (env n).1 (env n).2).2

/-- The record returned by call number `k + 1` in that run. -/
def synthCall (t0 : ℚ) (env : ℕ → ℚ × SynthEnv) (k : ℕ) : TelemetryRecord :=
  ((synthStateAfter t0 env k).getTelemetry (env k).1 (env k).2).1

/-- The clamped battery voltage computed when `request_count` has just
become `n`: `max(14.0, 16.8 - 0.001 * n)` (lines 52-55). -/
def rawVoltage (n : ℕ) : ℚ := max 14 (168/10 - (n : ℚ) / 1000)

/-- A concrete environment (zero sine, zero draws) for closed evaluations. -/
def zeroSynthEnv : SynthEnv :=
  { sinv := fun _ => 0
    gauss_roll := 0
    gauss_pitch := 0
    sat_draw := 10
    signal_draw := 85
    speed_draw := 1
    lat_noise := 0
    lon_noise := 0 }

/-! ## Streaming ingestor (`src/backend/mavlink_adapter.py`, class `MAVLinkDrone`) -/

/-- Decoded MAVLink messages as consumed by `_process_message`.  The
`heartbeat` constructor carries `base_mode` together with the string that
the external decoder `mavutil.mode_string_v10` produces for the message;
`other` stands for any message type the dispatcher does not handle. -/
inductive MavMsg where
  | attitude (roll pitch yaw : ℚ)
  | global_position_int (lat lon relative_alt : ℤ)
  | vfr_hud (groundspeed alt : ℚ)
  | sys_status (voltage_battery battery_remaining : ℤ)
  | gps_raw_int (satellites_visible fix_type : ℤ)
  | heartbeat (base_mode : ℕ) (mode_str : String)
  | other (t : String)
deriving DecidableEq

/-- The `latest_telemetry` dict: each key is absent (`none`) until its
first write. -/
structure MavTelemetry where
  roll : Option ℚ
  pitch : Option ℚ
  yaw : Option ℚ
  altitude : Option ℚ
  latitude : Option ℚ
  longitude : Option ℚ
  ground_speed : Option ℚ
  altitude_msl : Option ℚ
  battery_voltage : Option ℚ
  battery_remaining : Option ℤ
  gps_satellites : Option ℤ
  gps_fix_type : Option ℤ
  armed : Option Bool
  flight_mode : Option String
deriving DecidableEq

/-- The empty `latest_telemetry = {}` set up in `__init__`. -/
def mavEmpty : MavTelemetry :=
  { roll := none, pitch := none, yaw := none, altitude := none,
    latitude := none, longitude := none, ground_speed := none,
    altitude_msl := none, battery_voltage := none, battery_remaining := none,
    gps_satellites := none, gps_fix_type := none, armed := none,
    flight_mode := none }

/-- `_process_message` (lines 65-96).  The rad-to-deg factor is the
hard-coded constant `57.2958`; `MAV_MODE_FLAG_SAFETY_ARMED = 128`. -/
def mavProcess (msg : MavMsg) (s : MavTelemetry) : MavTelemetry :=
  match msg with
  | .attitude r p y =>
      { s with roll := some (r * (572958/10000)),
               pitch := some (p * (572958/10000)),
               yaw := some (y * (572958/10000)) }
  | .global_position_int la lo ra =>
      { s with altitude := some ((ra : ℚ) / 1000),
               latitude := some ((la : ℚ) / 10000000),
               longitude := some ((lo : ℚ) / 10000000) }
  | .vfr_hud gs alt =>
      { s with ground_speed := some gs, altitude_msl := some alt }
  | .sys_status vb br =>
      { s with battery_voltage := some ((vb : ℚ) / 1000),
               battery_remaining := some br }
  | .gps_raw_int sv ft =>
      { s with gps_satellites := some sv, gps_fix_type := some ft }
  | .heartbeat bm ms =>
      { s with armed := some (bm &&& 128 != 0), flight_mode := some ms }
  | .other _ => s

/-- `MAVLinkDrone.get_telemetry` (lines 98-125): a pure read of
`latest_telemetry` with per-field `.get` defaults; `now` is the call's
`time.time()`. -/
def mavGetTelemetry (now : ℚ) (s : MavTelemetry) : TelemetryRecord :=
  { timestamp := now
    altitude := s.altitude.getD 0
    battery_voltage := s.battery_voltage.getD 0
    status := if s.armed.getD false then ("ARMED") else ("DISARMED")
    roll := round2 (s.roll.getD 0)
    pitch := round2 (s.pitch.getD 0)
    yaw := round2 (s.yaw.getD 0)
    gps_satellites := s.gps_satellites.getD 0
    gps_latitude := s.latitude.getD 0
    gps_longitude := s.longitude.getD 0
    gps_altitude := s.altitude.getD 0
    signal_strength := 100
    ground_speed := round2 (s.ground_speed.getD 0)
    armed := s.armed.getD false
    flight_mode := s.flight_mode.getD ("UNKNOWN") }

/-- Connection state: the `running` stop flag plus `latest_telemetry`. -/
structure MavConn where
  running : Bool
  telem : MavTelemetry
deriving DecidableEq

/-- The connection right after `connect()` succeeds: `running = True`,
no message processed yet. -/
def mavConnect : MavConn := { running := true, telem := mavEmpty }

/-- One iteration body of `_receive_loop` (lines 55-63): `recv_match`
either raises (caught and logged: state unchanged), times out returning
`None` (state unchanged), or yields a message that is processed. -/
def mavRecvStep (c : MavConn) (r : Except String (Option MavMsg)) : MavConn :=
  match r with
  | .error _ => c
  | .ok none => c
  | .ok (some m) => { c with telem := mavProcess m c.telem }

/-- `_receive_loop`: `while self.running`, one bounded receive per
iteration; the stop flag is checked before every receive. -/
def mavReceiveLoop : MavConn → List (Except String (Option MavMsg)) → MavConn
  | c, [] => c
  | c, r :: rs => if c.running then mavReceiveLoop (mavRecvStep c r) rs else c

/-- `disconnect()` (lines 127-133): clears the stop flag; the join and the
transport close have no effect on `latest_telemetry`. -/
def mavDisconnect (c : MavConn) : MavConn := { c with running := false }

/-! ### Interleaving model for the unlocked lat/long pair

`_process_message` writes `latest_telemetry['latitude']` and
`latest_telemetry['longitude']` as two separate dict stores (lines 78-79),
and `get_telemetry` reads them back as two separate dict loads (lines
117-118), with no lock anywhere in the class.  Under the interpreter each
single dict store/load is atomic, but a snapshot reader may run between the
two stores of one position message.  The model below makes exactly those
four dict operations the atomic actions. -/

inductive GpsAct where
  | wLat (v : ℚ)
  | wLon (v : ℚ)
  | rLat
  | rLon
deriving DecidableEq

/-- The lat/long slice of the shared `latest_telemetry` dict (0 = the
`.get` default before the first write). -/
structure GpsShared where
  lat : ℚ
  lon : ℚ
deriving DecidableEq

/-- The snapshot under construction in a `get_telemetry` caller. -/
structure GpsReadBuf where
  lat : Option ℚ
  lon : Option ℚ
deriving DecidableEq

def gpsStep : GpsShared × GpsReadBuf → GpsAct → GpsShared × GpsReadBuf
  | (s, b), .wLat v => ({ s with lat := v }, b)
  | (s, b), .wLon v => ({ s with lon := v }, b)
  | (s, b), .rLat => (s, { b with lat := some s.lat })
  | (s, b), .rLon => (s, { b with lon := some s.lon })

def gpsRun (acts : List GpsAct) (st : GpsShared × GpsReadBuf) :
    GpsShared × GpsReadBuf :=
  acts.foldl gpsStep st

/-- The two atomic stores `_process_message` performs for one
`GLOBAL_POSITION_INT` message carrying the (already converted) pair. -/
def posWriterActs (m : ℚ × ℚ) : List GpsAct := [.wLat m.1, .wLon m.2]

/-- The two atomic loads `get_telemetry` performs for one snapshot. -/
def snapshotReaderActs : List GpsAct := [.rLat, .rLon]

/-- `Interleave xs ys zs`: `zs` is an order-preserving merge of the writer
action sequence `xs` with the reader action sequence `ys` — exactly the
schedules the thread model allows. -/
inductive Interleave : List GpsAct → List GpsAct → List GpsAct → Prop
  | nil : Interleave [] [] []
  | left {x xs ys zs} : Interleave xs ys zs → Interleave (x :: xs) ys (x :: zs)
  | right {y xs ys zs} : Interleave xs ys zs → Interleave xs (y :: ys) (y :: zs)

/-- A concrete schedule: the reader's two loads land between the second
position message's latitude store and its longitude store. -/
def tornSched : List GpsAct :=
  [.wLat 1, .wLon 10, .wLat 2, .rLat, .rLon, .wLon 20]

/-! ## Snapshot bridge (`src/backend/dji_adapter.py`, class `DJIDrone`) -/

/-- Payload of `/api/attitude` (keys may be absent). -/
structure DjiAttitude where
  roll : Option ℚ
  pitch : Option ℚ
  yaw : Option ℚ
deriving DecidableEq

/-- Payload of `/api/battery`. -/
structure DjiBattery where
  voltage : Option ℚ
deriving DecidableEq

/-- Payload of `/api/gps`. -/
structure DjiGps where
  altitude : Option ℚ
  latitude : Option ℚ
  longitude : Option ℚ
  speed : Option ℚ
  satellite_count : Option ℤ
deriving DecidableEq

/-- Payload of `/api/status`. -/
structure DjiStatus where
  flight_mode : Option String
  signal_strength : Option ℤ
  motors_on : Option Bool
deriving DecidableEq

/-- `_empty_telemetry` (lines 67-80). -/
def djiEmptyTelemetry (now : ℚ) : TelemetryRecord :=
  { timestamp := now, altitude := 0, battery_voltage := 0,
    status := "DISCONNECTED", roll := 0, pitch := 0, yaw := 0,
    gps_satellites := 0, gps_latitude := 0, gps_longitude := 0,
    gps_altitude := 0, signal_strength := 0, ground_speed := 0,
    armed := false, flight_mode := "UNKNOWN" }

def exceptFailed {α : Type} : Except String α → Bool
  | .error _ => true
  | .ok _ => false

/-- `DJIDrone.get_telemetry` (lines 25-65): the four sub-requests run
inside one `try`; if any of them fails the whole call answers
`_empty_telemetry()`.  (In the source the four requests are sequential, so
a failure also skips the later ones; the returned record is the same.) -/
def djiGetTelemetry (now : ℚ) (att : Except String DjiAttitude)
    (bat : Except String DjiBattery) (gps : Except String DjiGps)
    (st : Except String DjiStatus) : TelemetryRecord :=
  match att, bat, gps, st with
  | .ok a, .ok b, .ok g, .ok t =>
      { timestamp := now
        altitude := g.altitude.getD 0
        battery_voltage := b.voltage.getD 0
        status := t.flight_mode.getD ("UNKNOWN")
        roll := a.roll.getD 0
        pitch := a.pitch.getD 0
        yaw := a.yaw.getD 0
        gps_satellites := g.satellite_count.getD 0
        gps_latitude := g.latitude.getD 0
        gps_longitude := g.longitude.getD 0
        gps_altitude := g.altitude.getD 0
        signal_strength := t.signal_strength.getD 0
        ground_speed := g.speed.getD 0
        armed := t.motors_on.getD false
        flight_mode := t.flight_mode.getD ("UNKNOWN") }
  | _, _, _, _ => djiEmptyTelemetry now

/-! ## Shared lemmas -/

theorem roundHalfEven_mono {x y : ℚ} (h : x ≤ y) :
    roundHalfEven x ≤ roundHalfEven y := by
  have hf : ⌊x⌋ ≤ ⌊y⌋ := Int.floor_le_floor h
  rcases eq_or_lt_of_le hf with heq | hlt
  · unfold roundHalfEven
    rw [← heq]
    have hxf : x - (⌊x⌋ : ℚ) ≤ y - (⌊x⌋ : ℚ) := by linarith
    split_ifs <;> first | omega | linarith
  · have h1 : roundHalfEven x ≤ ⌊x⌋ + 1 := by
      unfold roundHalfEven; split_ifs <;> omega
    have h2 : (⌊y⌋ : ℤ) ≤ roundHalfEven y := by
      unfold roundHalfEven; split_ifs <;> omega
    omega

theorem round2_mono {x y : ℚ} (h : x ≤ y) : round2 x ≤ round2 y := by
  have h1 : roundHalfEven (x * 100) ≤ roundHalfEven (y * 100) :=
    roundHalfEven_mono (by linarith)
  have h2 : ((roundHalfEven (x * 100) : ℚ)) ≤ ((roundHalfEven (y * 100) : ℚ)) :=
    Int.cast_le.mpr h1
  unfold round2
  linarith

/-- Evaluation rule for `roundHalfEven` below the half-way point. -/
theorem roundHalfEven_eq_low (n : ℤ) {x : ℚ} (h1 : (n : ℚ) ≤ x)
    (h2 : x < (n : ℚ) + 1/2) : roundHalfEven x = n := by
  have hf : ⌊x⌋ = n := Int.floor_eq_iff.mpr ⟨h1, by linarith⟩
  unfold roundHalfEven
  rw [hf, if_pos (by linarith)]

/-- Evaluation rule for `roundHalfEven` above the half-way point. -/
theorem roundHalfEven_eq_high (n : ℤ) {x : ℚ} (h1 : (n : ℚ) + 1/2 < x)
    (h2 : x < (n : ℚ) + 1) : roundHalfEven x = n + 1 := by
  have hf : ⌊x⌋ = n := Int.floor_eq_iff.mpr ⟨by linarith, by linarith⟩
  unfold roundHalfEven
  rw [hf, if_neg (by linarith), if_pos (by linarith)]

theorem round2_eq_low (n : ℤ) {x : ℚ} (h1 : (n : ℚ) ≤ x * 100)
    (h2 : x * 100 < (n : ℚ) + 1/2) : round2 x = (n : ℚ) / 100 := by
  unfold round2
  rw [roundHalfEven_eq_low n h1 h2]

theorem round2_eq_high (n : ℤ) {x : ℚ} (h1 : (n : ℚ) + 1/2 < x * 100)
    (h2 : x * 100 < (n : ℚ) + 1) : round2 x = ((n : ℚ) + 1) / 100 := by
  unfold round2
  rw [roundHalfEven_eq_high n h1 h2]
  push_cast
  ring

theorem round2_fourteen : round2 14 = 14 := by
  rw [round2_eq_low 1400 (by norm_num) (by norm_num)]
  norm_num

theorem rawVoltage_ge (n : ℕ) : 14 ≤ rawVoltage n := le_max_left _ _

theorem rawVoltage_antitone {j k : ℕ} (h : j ≤ k) :
    rawVoltage k ≤ rawVoltage j := by
  have hc : (j : ℚ) ≤ (k : ℚ) := by exact_mod_cast h
  exact max_le_max le_rfl (by linarith)

/-- The fields of the generator state that the battery computation reads
are invariant along a run, except for `request_count` which counts calls. -/
theorem synthStateAfter_fields (t0 : ℚ) (env : ℕ → ℚ × SynthEnv) (n : ℕ) :
    (synthStateAfter t0 env n).request_count = n ∧
    (synthStateAfter t0 env n).initial_battery = 168/10 ∧
    (synthStateAfter t0 env n).battery_drain_rate = 1/1000 ∧
    (synthStateAfter t0 env n).start_time = t0 := by
  induction n with
  | zero => exact ⟨rfl, rfl, rfl, rfl⟩
  | succ n ih =>
      obtain ⟨h1, h2, h3, h4⟩ := ih
      refine ⟨?_, ?_, ?_, ?_⟩ <;>
        simp [synthStateAfter, DroneState.getTelemetry, h1, h2, h3, h4]

/-- The battery voltage reported by call number `k + 1`. -/
theorem synthCall_battery_voltage (t0 : ℚ) (env : ℕ → ℚ × SynthEnv) (k : ℕ) :
    (synthCall t0 env k).battery_voltage = round2 (rawVoltage (k + 1)) := by
  obtain ⟨h1, h2, h3, _⟩ := synthStateAfter_fields t0 env k
  simp only [synthCall, DroneState.getTelemetry, h1, h2, h3, rawVoltage]
  congr 2
  push_cast
  ring

/-- The status reported by call number `k + 1`. -/
theorem synthCall_status (t0 : ℚ) (env : ℕ → ℚ × SynthEnv) (k : ℕ) :
    (synthCall t0 env k).status =
      if 14 < rawVoltage (k + 1) then ("ARMED") else ("RTL") := by
  obtain ⟨h1, h2, h3, _⟩ := synthStateAfter_fields t0 env k
  simp only [synthCall, DroneState.getTelemetry, h1, h2, h3, rawVoltage]
  congr 3
  push_cast
  ring

/-! ## Claim theorems -/

/-- Claim C7: the global-position rule converts relative altitude from
millimeters to meters (division by 1000) and latitude/longitude from
scaled integers to degrees (division by 1e7); processing a message with
`relative_alt = 12500` and taking a snapshot reports `altitude = 12.5`. -/
theorem mavlink_global_position_conversion (la lo ra : ℤ) (s : MavTelemetry)
    (now : ℚ) :
    (mavProcess (.global_position_int la lo ra) s).altitude =
      some ((ra : ℚ) / 1000) ∧
    (mavProcess (.global_position_int la lo ra) s).latitude =
      some ((la : ℚ) / 10000000) ∧
    (mavProcess (.global_position_int la lo ra) s).longitude =
      some ((lo : ℚ) / 10000000) ∧
    (mavGetTelemetry now
      (mavProcess (.global_position_int 0 0 12500) mavEmpty)).altitude =
      125/10 := by
  refine ⟨rfl, rfl, rfl, ?_⟩
  norm_num [mavGetTelemetry, mavProcess, mavEmpty]

/-- Claim C8: every field-update rule of the message dispatcher changes
only the `latest_telemetry` keys it owns and leaves all other keys
unchanged; a message of unknown kind changes nothing at all. -/
theorem mavlink_dispatcher_frame (s : MavTelemetry) (r p y gs alt : ℚ)
    (la lo ra vb br sv ft : ℤ) (bm : ℕ) (ms tag : String) :
    ((mavProcess (.attitude r p y) s).altitude = s.altitude ∧
     (mavProcess (.attitude r p y) s).latitude = s.latitude ∧
     (mavProcess (.attitude r p y) s).longitude = s.longitude ∧
     (mavProcess (.attitude r p y) s).ground_speed = s.ground_speed ∧
     (mavProcess (.attitude r p y) s).altitude_msl = s.altitude_msl ∧
     (mavProcess (.attitude r p y) s).battery_voltage = s.battery_voltage ∧
     (mavProcess (.attitude r p y) s).battery_remaining = s.battery_remaining ∧
     (mavProcess (.attitude r p y) s).gps_satellites = s.gps_satellites ∧
     (mavProcess (.attitude r p y) s).gps_fix_type = s.gps_fix_type ∧
     (mavProcess (.attitude r p y) s).armed = s.armed ∧
     (mavProcess (.attitude r p y) s).flight_mode = s.flight_mode) ∧
    ((mavProcess (.global_position_int la lo ra) s).roll = s.roll ∧
     (mavProcess (.global_position_int la lo ra) s).pitch = s.pitch ∧
     (mavProcess (.global_position_int la lo ra) s).yaw = s.yaw ∧
     (mavProcess (.global_position_int la lo ra) s).ground_speed = s.ground_speed ∧
     (mavProcess (.global_position_int la lo ra) s).altitude_msl = s.altitude_msl ∧
     (mavProcess (.global_position_int la lo ra) s).battery_voltage = s.battery_voltage ∧
     (mavProcess (.global_position_int la lo ra) s).battery_remaining = s.battery_remaining ∧
     (mavProcess (.global_position_int la lo ra) s).gps_satellites = s.gps_satellites ∧
     (mavProcess (.global_position_int la lo ra) s).gps_fix_type = s.gps_fix_type ∧
     (mavProcess (.global_position_int la lo ra) s).armed = s.armed ∧
     (mavProcess (.global_position_int la lo ra) s).flight_mode = s.flight_mode) ∧
    ((mavProcess (.vfr_hud gs alt) s).roll = s.roll ∧
     (mavProcess (.vfr_hud gs alt) s).pitch = s.pitch ∧
     (mavProcess (.vfr_hud gs alt) s).yaw = s.yaw ∧
     (mavProcess (.vfr_hud gs alt) s).altitude = s.altitude ∧
     (mavProcess (.vfr_hud gs alt) s).latitude = s.latitude ∧
     (mavProcess (.vfr_hud gs alt) s).longitude = s.longitude ∧
     (mavProcess (.vfr_hud gs alt) s).battery_voltage = s.battery_voltage ∧
     (mavProcess (.vfr_hud gs alt) s).battery_remaining = s.battery_remaining ∧
     (mavProcess (.vfr_hud gs alt) s).gps_satellites = s.gps_satellites ∧
     (mavProcess (.vfr_hud gs alt) s).gps_fix_type = s.gps_fix_type ∧
     (mavProcess (.vfr_hud gs alt) s).armed = s.armed ∧
     (mavProcess (.vfr_hud gs alt) s).flight_mode = s.flight_mode) ∧
    ((mavProcess (.sys_status vb br) s).roll = s.roll ∧
     (mavProcess (.sys_status vb br) s).pitch = s.pitch ∧
     (mavProcess (.sys_status vb br) s).yaw = s.yaw ∧
     (mavProcess (.sys_status vb br) s).altitude = s.altitude ∧
     (mavProcess (.sys_status vb br) s).latitude = s.latitude ∧
     (mavProcess (.sys_status vb br) s).longitude = s.longitude ∧
     (mavProcess (.sys_status vb br) s).ground_speed = s.ground_speed ∧
     (mavProcess (.sys_status vb br) s).altitude_msl = s.altitude_msl ∧
     (mavProcess (.sys_status vb br) s).gps_satellites = s.gps_satellites ∧
     (mavProcess (.sys_status vb br) s).gps_fix_type = s.gps_fix_type ∧
     (mavProcess (.sys_status vb br) s).armed = s.armed ∧
     (mavProcess (.sys_status vb br) s).flight_mode = s.flight_mode) ∧
    ((mavProcess (.gps_raw_int sv ft) s).roll = s.roll ∧
     (mavProcess (.gps_raw_int sv ft) s).pitch = s.pitch ∧
     (mavProcess (.gps_raw_int sv ft) s).yaw = s.yaw ∧
     (mavProcess (.gps_raw_int sv ft) s).altitude = s.altitude ∧
     (mavProcess (.gps_raw_int sv ft) s).latitude = s.latitude ∧
     (mavProcess (.gps_raw_int sv ft) s).longitude = s.longitude ∧
     (mavProcess (.gps_raw_int sv ft) s).ground_speed = s.ground_speed ∧
     (mavProcess (.gps_raw_int sv ft) s).altitude_msl = s.altitude_msl ∧
     (mavProcess (.gps_raw_int sv ft) s).battery_voltage = s.battery_voltage ∧
     (mavProcess (.gps_raw_int sv ft) s).battery_remaining = s.battery_remaining ∧
     (mavProcess (.gps_raw_int sv ft) s).armed = s.armed ∧
     (mavProcess (.gps_raw_int sv ft) s).flight_mode = s.flight_mode) ∧
    ((mavProcess (.heartbeat bm ms) s).roll = s.roll ∧
     (mavProcess (.heartbeat bm ms) s).pitch = s.pitch ∧
     (mavProcess (.heartbeat bm ms) s).yaw = s.yaw ∧
     (mavProcess (.heartbeat bm ms) s).altitude = s.altitude ∧
     (mavProcess (.heartbeat bm ms) s).latitude = s.latitude ∧
     (mavProcess (.heartbeat bm ms) s).longitude = s.longitude ∧
     (mavProcess (.heartbeat bm ms) s).ground_speed = s.ground_speed ∧
     (mavProcess (.heartbeat bm ms) s).altitude_msl = s.altitude_msl ∧
     (mavProcess (.heartbeat bm ms) s).battery_voltage = s.battery_voltage ∧
     (mavProcess (.heartbeat bm ms) s).battery_remaining = s.battery_remaining ∧
     (mavProcess (.heartbeat bm ms) s).gps_satellites = s.gps_satellites ∧
     (mavProcess (.heartbeat bm ms) s).gps_fix_type = s.gps_fix_type) ∧
    mavProcess (.other tag) s = s := by
  repeat' apply And.intro
  all_goals rfl

/-- Claim C9: `reset` rebuilds the generator with battery at its initial
value, call counter zero and elapsed-time origin at the reset instant; the
first telemetry call after reset reports status ARMED (the initial voltage
is above the floor). -/
theorem synth_reset_restores_initial (t0 now : ℚ) (env : SynthEnv) :
    resetSim t0 = DroneState.init t0 ∧
    (resetSim t0).request_count = 0 ∧
    (resetSim t0).initial_battery = 168/10 ∧
    (resetSim t0).start_time = t0 ∧
    14 < (resetSim t0).initial_battery ∧
    ((resetSim t0).getTelemetry now env).1.status = "ARMED" := by
  refine ⟨rfl, rfl, rfl, rfl, by norm_num [resetSim, DroneState.init], ?_⟩
  norm_num [resetSim, DroneState.init, DroneState.getTelemetry, lt_max_iff]

/-- Any sub-request failure makes the bridge answer `_empty_telemetry()`
(shared helper). -/
theorem dji_fail_helper (now : ℚ) (att : Except String DjiAttitude)
    (bat : Except String DjiBattery) (gps : Except String DjiGps)
    (st : Except String DjiStatus)
    (h : exceptFailed att = true ∨ exceptFailed bat = true ∨
         exceptFailed gps = true ∨ exceptFailed st = true) :
    djiGetTelemetry now att bat gps st = djiEmptyTelemetry now := by
  cases att <;> cases bat <;> cases gps <;> cases st <;>
    simp_all [djiGetTelemetry, exceptFailed]

/-- Claim C3: if any of the snapshot bridge's four sub-requests fails, the
returned record equals, field for field, the fully-defaulted DISCONNECTED
record `_empty_telemetry()`. -/
theorem dji_failure_full_default (now : ℚ) (att : Except String DjiAttitude)
    (bat : Except String DjiBattery) (gps : Except String DjiGps)
    (st : Except String DjiStatus)
    (h : exceptFailed att = true ∨ exceptFailed bat = true ∨
         exceptFailed gps = true ∨ exceptFailed st = true) :
    djiGetTelemetry now att bat gps st = djiEmptyTelemetry now :=
  dji_fail_helper now att bat gps st h

/-- Witness for C3 at a concrete input: the battery sub-request fails,
the other three succeed, and the result is the defaulted record. -/
theorem dji_failure_full_default_witness :
    (exceptFailed (Except.ok ⟨none, none, none⟩ : Except String DjiAttitude) = true ∨
     exceptFailed (Except.error ("timeout") : Except String DjiBattery) = true ∨
     exceptFailed (Except.ok ⟨none, none, none, none, none⟩ : Except String DjiGps) = true ∨
     exceptFailed (Except.ok ⟨none, none, none⟩ : Except String DjiStatus) = true) ∧
    djiGetTelemetry 0 (Except.ok ⟨none, none, none⟩)
      (Except.error ("timeout")) (Except.ok ⟨none, none, none, none, none⟩)
      (Except.ok ⟨none, none, none⟩) = djiEmptyTelemetry 0 :=
  ⟨Or.inr (Or.inl rfl),
   dji_failure_full_default 0 (Except.ok ⟨none, none, none⟩)
     (Except.error ("timeout")) (Except.ok ⟨none, none, none, none, none⟩)
     (Except.ok ⟨none, none, none⟩) (Or.inr (Or.inl rfl))⟩

/-- Counterexample to C4 as stated: on call number 2796 the reported
battery voltage has already reached the 14.0 V floor (14.004 rounds to
14.0) while the reported status is still ARMED, not RTL. -/
theorem synth_reported_floor_but_armed :
    (synthCall 0 (fun _ => (0, zeroSynthEnv)) 2795).battery_voltage = 14 ∧
    (synthCall 0 (fun _ => (0, zeroSynthEnv)) 2795).status = "ARMED" := by
  have hv : rawVoltage 2796 = 14004/1000 := by
    unfold rawVoltage
    push_cast
    rw [max_eq_right (by norm_num)]
    norm_num
  constructor
  · rw [synthCall_battery_voltage, hv]
    have hr : round2 (14004/1000 : ℚ) = ((1400 : ℚ))/100 :=
      round2_eq_low 1400 (by norm_num) (by norm_num)
    rw [hr]
    norm_num
  · rw [synthCall_status, if_pos (show (14:ℚ) < rawVoltage 2796 by
      rw [hv]; norm_num)]

/-- Claim C4 (amended): the reported battery voltage is non-increasing
across successive calls and never below the 14.0 V floor; once the
computed (clamped, pre-rounding) voltage has reached the floor, the status
is RTL on that call and every later call of the run. -/
theorem synth_battery_monotone_rtl_amended (t0 : ℚ) (env : ℕ → ℚ × SynthEnv)
    (j k : ℕ) (h : j ≤ k) :
    (synthCall t0 env k).battery_voltage ≤ (synthCall t0 env j).battery_voltage ∧
    14 ≤ (synthCall t0 env k).battery_voltage ∧
    (rawVoltage (j + 1) = 14 → (synthCall t0 env k).status = "RTL") := by
  refine ⟨?_, ?_, ?_⟩
  · rw [synthCall_battery_voltage, synthCall_battery_voltage]
    exact round2_mono (rawVoltage_antitone (by omega))
  · rw [synthCall_battery_voltage]
    have h14 := round2_mono (rawVoltage_ge (k + 1))
    rwa [round2_fourteen] at h14
  · intro hfl
    have hle : rawVoltage (k + 1) ≤ 14 := by
      have hm := rawVoltage_antitone (show j + 1 ≤ k + 1 by omega)
      rw [hfl] at hm
      exact hm
    rw [synthCall_status, if_neg (by linarith)]

/-- Witness for the amended C4 at a concrete run and concrete call pair. -/
theorem synth_battery_monotone_rtl_amended_witness :
    0 ≤ 0 ∧
    ((synthCall 0 (fun _ => (0, zeroSynthEnv)) 0).battery_voltage ≤
       (synthCall 0 (fun _ => (0, zeroSynthEnv)) 0).battery_voltage ∧
     14 ≤ (synthCall 0 (fun _ => (0, zeroSynthEnv)) 0).battery_voltage ∧
     (rawVoltage 1 = 14 →
       (synthCall 0 (fun _ => (0, zeroSynthEnv)) 0).status = "RTL")) :=
  ⟨Nat.le_refl 0,
   synth_battery_monotone_rtl_amended 0 (fun _ => (0, zeroSynthEnv)) 0 0
     (Nat.le_refl 0)⟩

/-- Counterexample to C10 as stated: the very first call after creation
reports exactly the initial voltage 16.8 V, because the computed 16.799 V
is rounded to two decimals before being reported. -/
theorem synth_first_call_reports_initial_voltage :
    (synthCall 0 (fun _ => (0, zeroSynthEnv)) 0).battery_voltage = 168/10 ∧
    (DroneState.init 0).initial_battery = 168/10 := by
  refine ⟨?_, rfl⟩
  rw [synthCall_battery_voltage]
  have hv : rawVoltage 1 = 16799/1000 := by
    unfold rawVoltage
    push_cast
    rw [max_eq_right (by norm_num)]
    norm_num
  rw [hv]
  have hr : round2 (16799/1000 : ℚ) = ((1679 : ℚ) + 1)/100 :=
    round2_eq_high 1679 (by norm_num) (by norm_num)
  rw [hr]
  norm_num

/-- Claim C10 (amended): the call counter is incremented before the
voltage is computed, so call number k+1 computes
max(floor, initial − (k+1)·decrement) and reports that value rounded to
two decimals; the first call computes 16.799 V, whose reported rounding is
16.8 V — the initial voltage itself. -/
theorem synth_call_counter_voltage_amended (t0 : ℚ) (env : ℕ → ℚ × SynthEnv)
    (k : ℕ) :
    (synthStateAfter t0 env k).request_count = k ∧
    (synthCall t0 env k).battery_voltage = round2 (rawVoltage (k + 1)) ∧
    rawVoltage 1 = 16799/1000 ∧
    round2 (16799/1000) = 168/10 := by
  refine ⟨(synthStateAfter_fields t0 env k).1,
    synthCall_battery_voltage t0 env k, ?_, ?_⟩
  · unfold rawVoltage
    push_cast
    rw [max_eq_right (by norm_num)]
    norm_num
  · have hr : round2 (16799/1000 : ℚ) = ((1679 : ℚ) + 1)/100 :=
      round2_eq_high 1679 (by norm_num) (by norm_num)
    rw [hr]
    norm_num

theorem round2_zero : round2 0 = 0 := by
  rw [round2_eq_low 0 (by norm_num) (by norm_num)]
  norm_num

/-- Counterexample to C2 as stated: after an internal receive failure the
streaming ingestor's state is unchanged, and a subsequent snapshot reports
status DISARMED — not DISCONNECTED — with the hardcoded signal strength
100 instead of the defaulted 0. -/
theorem mavlink_failure_status_not_disconnected :
    mavRecvStep mavConnect (Except.error ("socket error")) = mavConnect ∧
    (mavGetTelemetry 0 mavConnect.telem).status = "DISARMED" ∧
    (mavGetTelemetry 0 mavConnect.telem).status ≠ "DISCONNECTED" ∧
    (mavGetTelemetry 0 mavConnect.telem).signal_strength = 100 := by
  refine ⟨rfl, rfl, by decide, rfl⟩

/-- Claim C2 (amended): no provider's GetTelemetry raises — each is a
total function of its inputs; on any sub-request failure the snapshot
bridge returns the fully-defaulted DISCONNECTED record; the streaming
ingestor absorbs receive failures in its background loop and its snapshot
then reports ARMED or DISARMED (never DISCONNECTED); the synthetic
generator has no failure path and reports only ARMED or RTL. -/
theorem providers_fail_soft_amended (now t0 : ℚ)
    (att : Except String DjiAttitude) (bat : Except String DjiBattery)
    (gps : Except String DjiGps) (stt : Except String DjiStatus)
    (c : MavConn) (e : String) (s : MavTelemetry) (d : DroneState)
    (env : SynthEnv)
    (h : exceptFailed att = true ∨ exceptFailed bat = true ∨
         exceptFailed gps = true ∨ exceptFailed stt = true) :
    djiGetTelemetry now att bat gps stt = djiEmptyTelemetry now ∧
    (djiEmptyTelemetry now).status = "DISCONNECTED" ∧
    mavRecvStep c (Except.error e) = c ∧
    ((mavGetTelemetry now s).status = "ARMED" ∨
     (mavGetTelemetry now s).status = "DISARMED") ∧
    ((d.getTelemetry t0 env).1.status = "ARMED" ∨
     (d.getTelemetry t0 env).1.status = "RTL") := by
  refine ⟨dji_fail_helper now att bat gps stt h, rfl, rfl, ?_, ?_⟩
  · cases hb : s.armed.getD false
    · right
      simp [mavGetTelemetry, hb]
    · left
      simp [mavGetTelemetry, hb]
  · dsimp only [DroneState.getTelemetry]
    split
    · exact Or.inl rfl
    · exact Or.inr rfl

/-- Witness for the amended C2 at a concrete input: the attitude
sub-request fails, the ingestor state is empty, the generator is fresh. -/
theorem providers_fail_soft_amended_witness :
    (exceptFailed (Except.error ("refused") : Except String DjiAttitude) = true ∨
     exceptFailed (Except.ok ⟨none⟩ : Except String DjiBattery) = true ∨
     exceptFailed (Except.ok ⟨none, none, none, none, none⟩ : Except String DjiGps) = true ∨
     exceptFailed (Except.ok ⟨none, none, none⟩ : Except String DjiStatus) = true) ∧
    (djiGetTelemetry 0 (Except.error ("refused")) (Except.ok ⟨none⟩)
       (Except.ok ⟨none, none, none, none, none⟩)
       (Except.ok ⟨none, none, none⟩) = djiEmptyTelemetry 0 ∧
     (djiEmptyTelemetry 0).status = "DISCONNECTED" ∧
     mavRecvStep mavConnect (Except.error ("io down")) = mavConnect ∧
     ((mavGetTelemetry 0 mavEmpty).status = "ARMED" ∨
      (mavGetTelemetry 0 mavEmpty).status = "DISARMED") ∧
     (((DroneState.init 0).getTelemetry 0 zeroSynthEnv).1.status = "ARMED" ∨
      ((DroneState.init 0).getTelemetry 0 zeroSynthEnv).1.status = "RTL")) :=
  ⟨Or.inl rfl,
   providers_fail_soft_amended 0 0 (Except.error ("refused"))
     (Except.ok ⟨none⟩) (Except.ok ⟨none, none, none, none, none⟩)
     (Except.ok ⟨none, none, none⟩) mavConnect ("io down") mavEmpty
     (DroneState.init 0) zeroSynthEnv (Or.inl rfl)⟩

/-- Counterexample to C5 as stated: after disconnecting a fresh connection
the snapshot's signal strength is the hardcoded 100 — not the defined
default 0 — and its status token is DISARMED. -/
theorem mavlink_default_record_not_all_zero :
    (mavGetTelemetry 0 (mavDisconnect mavConnect).telem).signal_strength = 100 ∧
    (mavGetTelemetry 0 (mavDisconnect mavConnect).telem).signal_strength ≠ 0 ∧
    (mavGetTelemetry 0 (mavDisconnect mavConnect).telem).status = "DISARMED" := by
  refine ⟨rfl, by decide, rfl⟩

/-- Claim C5 (amended): `disconnect()` before any message clears the run
flag, after which the receive loop performs no further iteration no matter
what the transport would deliver; a subsequent snapshot returns the
ingestor's defaulted record — zeros for the numeric telemetry fields,
status DISARMED, armed false, flight mode UNKNOWN, and the hardcoded
signal strength 100 — with the call's timestamp. -/
theorem mavlink_disconnect_before_data
    (msgs : List (Except String (Option MavMsg))) (now : ℚ) :
    mavDisconnect mavConnect = { running := false, telem := mavEmpty } ∧
    mavReceiveLoop (mavDisconnect mavConnect) msgs = mavDisconnect mavConnect ∧
    mavGetTelemetry now (mavDisconnect mavConnect).telem =
      { timestamp := now, altitude := 0, battery_voltage := 0,
        status := "DISARMED", roll := 0, pitch := 0, yaw := 0,
        gps_satellites := 0, gps_latitude := 0, gps_longitude := 0,
        gps_altitude := 0, signal_strength := 100, ground_speed := 0,
        armed := false, flight_mode := "UNKNOWN" } := by
  refine ⟨rfl, ?_, ?_⟩
  · cases msgs with
    | nil => rfl
    | cons r rs => rfl
  · simp [mavGetTelemetry, mavDisconnect, mavConnect, mavEmpty, round2_zero]

/-- Counterexample to C6 as stated: the dispatcher multiplies attitude
angles by the hard-coded constant 57.2958, and that constant is not
180/π. -/
theorem mavlink_deg_factor_not_exact :
    (mavProcess (.attitude 1 0 0) mavEmpty).roll = some (1 * (572958/10000)) ∧
    ((572958/10000 : ℝ) ≠ 180 / Real.pi) := by
  refine ⟨rfl, ?_⟩
  intro hEq
  rw [eq_div_iff (ne_of_gt Real.pi_pos)] at hEq
  have h1 : (572958/10000 : ℝ) * 3.141592 < (572958/10000 : ℝ) * Real.pi :=
    mul_lt_mul_of_pos_left Real.pi_gt_d6 (by norm_num)
  have h2 : (180 : ℝ) < (572958/10000 : ℝ) * 3.141592 := by norm_num
  linarith

/-- Claim C6 (amended): the attitude rule converts roll/pitch/yaw from
radians to degrees by multiplying by the hard-coded constant 57.2958,
which agrees with 180/π to within 1e-4; after processing an attitude
message with roll = 1.0 rad a snapshot reports roll = 57.3, within 0.01 of
57.30 degrees. -/
theorem mavlink_attitude_conversion_amended (r p y : ℚ) (s : MavTelemetry)
    (now : ℚ) :
    (mavProcess (.attitude r p y) s).roll = some (r * (572958/10000)) ∧
    (mavProcess (.attitude r p y) s).pitch = some (p * (572958/10000)) ∧
    (mavProcess (.attitude r p y) s).yaw = some (y * (572958/10000)) ∧
    |(572958/10000 : ℝ) - 180 / Real.pi| < 1/10000 ∧
    (mavGetTelemetry now (mavProcess (.attitude 1 0 0) mavEmpty)).roll = 573/10 ∧
    |(mavGetTelemetry now (mavProcess (.attitude 1 0 0) mavEmpty)).roll -
       5730/100| ≤ 1/100 := by
  have hroll : (mavGetTelemetry now
      (mavProcess (.attitude 1 0 0) mavEmpty)).roll = 573/10 := by
    show round2 ((1 : ℚ) * (572958/10000)) = 573/10
    rw [one_mul, round2_eq_high 5729 (by norm_num) (by norm_num)]
    norm_num
  refine ⟨rfl, rfl, rfl, ?_, hroll, ?_⟩
  · rw [abs_sub_lt_iff]
    constructor
    · have hlow : (572957/10000 : ℝ) < 180 / Real.pi := by
        rw [lt_div_iff₀ Real.pi_pos]
        have h1 : (572957/10000 : ℝ) * Real.pi < (572957/10000 : ℝ) * 3.141593 :=
          mul_lt_mul_of_pos_left Real.pi_lt_d6 (by norm_num)
        have h2 : (572957/10000 : ℝ) * 3.141593 < 180 := by norm_num
        linarith
      linarith
    · have hhigh : 180 / Real.pi < (572958/10000 : ℝ) := by
        rw [div_lt_iff₀ Real.pi_pos]
        have h1 : (572958/10000 : ℝ) * 3.141592 < (572958/10000 : ℝ) * Real.pi :=
          mul_lt_mul_of_pos_left Real.pi_gt_d6 (by norm_num)
        have h2 : (180 : ℝ) < (572958/10000 : ℝ) * 3.141592 := by norm_num
        linarith
      linarith
  · rw [hroll]
    norm_num

/-- For C1: the unlocked dict admits a torn snapshot.  With position
messages (1,10) then (2,20), `tornSched` is a legal interleaving of the
writer's per-field stores with one reader's snapshot loads, and the reader
obtains latitude 2 together with longitude 10 — a pair that belongs to no
single injected message. -/
theorem mavlink_torn_gps_snapshot :
    Interleave (posWriterActs (1, 10) ++ posWriterActs (2, 20))
      snapshotReaderActs tornSched ∧
    (gpsRun tornSched (⟨0, 0⟩, ⟨none, none⟩)).2 = ⟨some 2, some 10⟩ ∧
    ¬ ((2 : ℚ), (10 : ℚ)) ∈ [((1 : ℚ), (10 : ℚ)), ((2 : ℚ), (20 : ℚ))] := by
  refine ⟨?_, rfl, ?_⟩
  · exact .left (.left (.left (.right (.right (.left .nil)))))
  · decide
